import Mathlib

/-!
Shallow embedding of `src/bot.py` (single-file Instagram auto-responder).

Modelling conventions:
* The Python set `self.processed_messages` is modelled by the list of its
  elements (duplicate-free; kept in insertion order purely as bookkeeping —
  only membership in the list is meaningful).  `set.add` becomes `seenInsert`.
  The trim `set(list(self.processed_messages)[-100:])` (bot.py line 215)
  depends on the set's iteration order, which CPython leaves arbitrary (hash
  order, randomized for strings): it keeps the last 100 elements of
  `list(...)`, that is, of an arbitrary permutation of the contents.  The
  step functions therefore take a parameter `order` standing for the
  iteration order produced at the moment of the trim; theorems about the
  trim quantify over every `order` that permutes its argument, and
  counterexamples instantiate `order` with a concrete possible iteration
  order.  Branches that never reach the trim do not depend on `order`.
* A Python `datetime` is a pair of a wall-clock value in seconds and an
  optional UTC offset in seconds (`none` models a naive datetime).  The
  instant it denotes is `wall - offset`; `message_time.replace(tzinfo=utc)`
  (bot.py line 194) attaches offset 0 to a naive value.
* The platform client (instagrapi) is an oracle: `fetch` maps a thread id to
  the message list `direct_thread(...).messages` (newest first), and the
  thread list stands for the result of `direct_threads(amount=100)`.
* Exceptions are modelled with `Except`; the body of a `try` that can raise is
  a value of `Except PyErr _` supplied by the environment.  `direct_send`
  failure is modelled by the predicate `send_fails` on the message id.
* `os.getenv` is a function `String → Option String`; Python truthiness of an
  optional string (`not all([...])`, bot.py line 274) is `py_truthy`, and
  `int(...)` on a string is `py_int` (ASCII digits, optional sign,
  underscores between digits, surrounding whitespace — a `none` result models
  the raised `ValueError`).
-/

/-- Outcome of the per-message policy in `check_and_respond`
(bot.py lines 175-215): reply was sent, message skipped, or only marked
as processed. -/
inductive Decision where
  | Reply
  | Ignore
  | MarkSeenOnly
  deriving DecidableEq, Repr

/-- A Python `datetime`: wall-clock seconds plus an optional UTC offset in
seconds (`none` = naive datetime without `tzinfo`). -/
structure PyDatetime where
  wall : Int
  tz : Option Int
  deriving DecidableEq, Repr

/-- Lines 193-194: `if message_time.tzinfo is None: message_time =
message_time.replace(tzinfo=datetime.timezone.utc)`. -/
def normalize_tz (t : PyDatetime) : PyDatetime :=
  if t.tz = none then { t with tz := some 0 } else t

/-- The absolute instant denoted by a datetime (UTC seconds); subtraction of
two datetimes in Python compares these instants. -/
def instant (t : PyDatetime) : Int :=
  t.wall - (t.tz.getD 0)

/-- A direct message as used by `check_and_respond`: `message.id`,
`message.user_id`, `message.text`, `message.timestamp`. -/
structure Message where
  id : String
  user_id : Nat
  text : String
  timestamp : PyDatetime
  deriving DecidableEq, Repr

/-- The bot's fixed identifiers: `self.client.user_id`,
`self.target_user_id`, `self.response_message`. -/
structure BotConfig where
  self_id : Nat
  target_user_id : Nat
  response_message : String
  deriving DecidableEq, Repr

/-- Mutable poll-loop state: the contents of `self.processed_messages` and
an audit log of the calls to `self.client.direct_send(text, [recipient])`. -/
structure PollState where
  processed_messages : List String
  sends : List (String × Nat)
  deriving DecidableEq, Repr

/-- `self.processed_messages.add(mid)` on the list of the set's elements:
appending is a no-op when the id is already present. -/
def seenInsert (seen : List String) (mid : String) : List String :=
  if mid ∈ seen then seen else seen ++ [mid]

/-- Python `list(...)[-n:]`: the last `n` elements of a list. -/
def lastN (n : Nat) (l : List α) : List α :=
  l.drop (l.length - n)

/-- One iteration of the `for message in messages` body of
`check_and_respond` (bot.py lines 175-215), returning the decision taken and
the updated state.  Branches in source order: already-processed check (179),
own-message check (183), target check (188), staleness check (199), reply =
send + mark + trim (207-215).  `order` is the set iteration order used by
`list(self.processed_messages)` in the trim at line 215: the retained
elements are the last 100 of `order` applied to the set's contents. -/
def stepMessage (order : List String → List String) (cfg : BotConfig) (now : Int)
    (st : PollState) (message : Message) : Decision × PollState :=
  if message.id ∈ st.processed_messages then
    (Decision.Ignore, st)
  else if message.user_id = cfg.self_id then
    (Decision.MarkSeenOnly,
      { st with processed_messages := seenInsert st.processed_messages message.id })
  else if message.user_id = cfg.target_user_id then
    if now - instant (normalize_tz message.timestamp) > 300 then
      (Decision.MarkSeenOnly,
        { st with processed_messages := seenInsert st.processed_messages message.id })
    else
      let sent : PollState :=
        { st with sends := st.sends ++ [(cfg.response_message, cfg.target_user_id)] }
      let marked : PollState :=
        { sent with processed_messages := seenInsert sent.processed_messages message.id }
      (Decision.Reply,
        if marked.processed_messages.length > 100 then
          { marked with processed_messages := lastN 100 (order marked.processed_messages) }
        else marked)
  else
    (Decision.Ignore, st)

/-- The whole message loop of `check_and_respond` over the fetched message
list (newest first), threading the state through `stepMessage`. -/
def check_and_respond (order : List String → List String) (cfg : BotConfig) (now : Int) :
    PollState → List Message → PollState
  | st, [] => st
  | st, message :: rest =>
    check_and_respond order cfg now (stepMessage order cfg now st message).2 rest

/-- A thread summary from `direct_threads(amount=100)`: `thread.id` and the
participant pks `user.pk for user in thread.users`. -/
structure ThreadInfo where
  id : String
  users : List Nat
  deriving DecidableEq, Repr

/-- Lines 147-148: `for msg in existing_thread.messages:
self.processed_messages.add(msg.id)`. -/
def seedProcessed (processed : List String) (msgs : List Message) : List String :=
  msgs.foldl (fun acc m => seenInsert acc m.id) processed

/-- `get_thread_id` (bot.py lines 131-157): scan the fetched thread list for
the first one whose participants contain the target pk; on a match record the
thread id and mark every message of that thread as processed; otherwise
return without a thread. -/
def get_thread_id (fetch : String → List Message) (target_user_id : Nat) :
    List String → List ThreadInfo → Option String × List String
  | processed, [] => (none, processed)
  | processed, thread :: rest =>
    if target_user_id ∈ thread.users then
      (some thread.id, seedProcessed processed (fetch thread.id))
    else
      get_thread_id fetch target_user_id processed rest

/-- `stepMessage` with a fallible `direct_send` (line 207): when the send
raises, the iteration aborts with the state as it was on entry to the reply
branch — no send is recorded and the id has not been added yet (line 211 runs
after line 207). -/
def stepMessageE (order : List String → List String) (cfg : BotConfig)
    (send_fails : String → Bool) (now : Int) (st : PollState) (message : Message) :
    Except PollState (Decision × PollState) :=
  if message.id ∈ st.processed_messages then
    Except.ok (Decision.Ignore, st)
  else if message.user_id = cfg.self_id then
    Except.ok (Decision.MarkSeenOnly,
      { st with processed_messages := seenInsert st.processed_messages message.id })
  else if message.user_id = cfg.target_user_id then
    if now - instant (normalize_tz message.timestamp) > 300 then
      Except.ok (Decision.MarkSeenOnly,
        { st with processed_messages := seenInsert st.processed_messages message.id })
    else if send_fails message.id then
      Except.error st
    else
      let sent : PollState :=
        { st with sends := st.sends ++ [(cfg.response_message, cfg.target_user_id)] }
      let marked : PollState :=
        { sent with processed_messages := seenInsert sent.processed_messages message.id }
      Except.ok (Decision.Reply,
        if marked.processed_messages.length > 100 then
          { marked with processed_messages := lastN 100 (order marked.processed_messages) }
        else marked)
  else
    Except.ok (Decision.Ignore, st)

/-- `check_and_respond` with a fallible send: the surrounding
`try ... except Exception` (bot.py lines 161, 217-218) catches the raised
exception, logs it and returns, abandoning the rest of the message list. -/
def check_and_respondE (order : List String → List String) (cfg : BotConfig)
    (send_fails : String → Bool) (now : Int) :
    PollState → List Message → PollState
  | st, [] => st
  | st, message :: rest =>
    match stepMessageE order cfg send_fails now st message with
    | Except.error stE => stE
    | Except.ok (_, st2) => check_and_respondE order cfg send_fails now st2 rest

/-- A Python exception relevant to `login`: `ChallengeRequired` or any other
`Exception`, carrying its message string. -/
inductive PyErr where
  | challenge_required
  | other (msg : String)
  deriving DecidableEq, Repr

/-- The environment `login` runs against: whether `session.json` exists
(line 47), the outcome of `load_settings` + `client.login` via the restored
session (lines 50-51), the outcome of the fresh `client.login` (line 59), and
the outcome of the interactive challenge handling (lines 68-70). -/
structure LoginEnv where
  session_exists : Bool
  session_login : Except PyErr Unit
  fresh_login : Except PyErr Unit
  challenge_handling : Except PyErr Unit
  deriving Repr

/-- The fresh-login part of `login` (bot.py lines 57-117): a successful fresh
login returns `true`; `ChallengeRequired` is handled interactively and
returns `true` on success; every other raised exception reaches the outer
`except` handlers (lines 74-117), which log a classified hint and return
`false`. -/
def fresh_login_path (env : LoginEnv) : Bool :=
  match env.fresh_login with
  | Except.ok _ => true
  | Except.error PyErr.challenge_required =>
    match env.challenge_handling with
    | Except.ok _ => true
    | Except.error _ => false
  | Except.error (PyErr.other _) => false

/-- `login` (bot.py lines 41-117).  If a session file exists its restore is
attempted first; the inner `except Exception` (line 54) swallows any failure
and falls through to the fresh-login path.  Every control path returns a
boolean. -/
def login (env : LoginEnv) : Bool :=
  if env.session_exists then
    match env.session_login with
    | Except.ok _ => true
    | Except.error _ => fresh_login_path env
  else
    fresh_login_path env

/-- Python truthiness of `os.getenv`'s result: `None` and the empty string
are falsy (the `not all([...])` test at bot.py line 274). -/
def py_truthy : Option String → Bool
  | none => false
  | some s => s != ""

/-- Tail of a Python integer literal after its leading digit: digits with
single underscores allowed only between digits. -/
def digits_tail : List Char → Bool
  | [] => true
  | c :: rest =>
    if c.isDigit then digits_tail rest
    else if c = '_' then
      match rest with
      | [] => false
      | d :: rest2 => d.isDigit && digits_tail rest2
    else false

/-- A non-empty ASCII digit run with optional internal underscores, as
accepted by Python `int` after sign and whitespace stripping. -/
def digits_ok : List Char → Bool
  | [] => false
  | c :: rest => c.isDigit && digits_tail rest

/-- Numeric value of a digit run, skipping underscores. -/
def digits_value (cs : List Char) : Nat :=
  cs.foldl (fun a c => if c = '_' then a else a * 10 + (c.toNat - 48)) 0

/-- Model of Python `int(s)` for base-10 string arguments (ASCII): strip
surrounding whitespace, allow one optional sign, then require a valid digit
run.  `none` models the raised `ValueError`. -/
def py_int (s : String) : Option Int :=
  let stripped :=
    ((s.toList.dropWhile Char.isWhitespace).reverse.dropWhile Char.isWhitespace).reverse
  match stripped with
  | [] => none
  | c :: rest =>
    if c = '-' then
      if digits_ok rest then some (-(digits_value rest : Int)) else none
    else if c = '+' then
      if digits_ok rest then some (digits_value rest) else none
    else
      if digits_ok (c :: rest) then some (digits_value (c :: rest)) else none

/-- Observable outcome of `main` (bot.py lines 261-287): early return with
the missing-variables error (line 277), an uncaught `ValueError` escaping
from `int(...)` (line 271), or construction + run of the bot with the
resolved configuration (lines 280-287). -/
inductive MainResult where
  | missing_vars
  | value_error (raw : String)
  | run_bot (username password target_username response_message : String)
      (check_interval : Int)
  deriving DecidableEq, Repr

/-- `main` (bot.py lines 261-287) over an abstract environment.  Note the
source order: `int(os.getenv('CHECK_INTERVAL', '10'))` at line 271 runs
before the required-variable validation at line 274, so an invalid interval
raises even when required variables are missing.  (Named `bot_main` because
`main` is reserved for the executable entry point.) -/
def bot_main (env : String → Option String) : MainResult :=
  let username := env "YOUR_USERNAME"
  let password := env "YOUR_PASSWORD"
  let target_username := env "TARGET_USERNAME"
  let response_message := (env "RESPONSE_MESSAGE").getD "Thanks for your message!"
  let interval_raw := (env "CHECK_INTERVAL").getD "10"
  match py_int interval_raw with
  | none => MainResult.value_error interval_raw
  | some check_interval =>
    if py_truthy username && py_truthy password && py_truthy target_username then
      MainResult.run_bot (username.getD "") (password.getD "") (target_username.getD "")
        response_message check_interval
    else
      MainResult.missing_vars


/-! ### Concrete fixtures used by counterexamples and witnesses -/

/-- 100 distinct message ids filling the seen-set to its nominal cap. -/
def c1Ids : List String := (List.range 100).map (fun i => "p" ++ toString i)

/-- 101 distinct pre-existing message ids. -/
def c6Ids : List String := (List.range 101).map (fun i => "m" ++ toString i)

/-- 101 pre-existing messages from the target, all sent at instant 1000
(still recent at the poll instant 1010). -/
def c6Msgs : List Message := c6Ids.map (fun i => { id := i, user_id := 7, text := "old", timestamp := { wall := 1000, tz := some 0 } })

/-- Thread fetch oracle: the monitored thread always contains the 101
pre-existing messages. -/
def c6Fetch : String → List Message := fun _ => c6Msgs

/-- One thread whose participants are the bot (pk 1) and the target (pk 7). -/
def c6Threads : List ThreadInfo := [{ id := "t1", users := [1, 7] }]

/-- Bot configuration for the trim scenario: self pk 1, target pk 7. -/
def c6Cfg : BotConfig := { self_id := 1, target_user_id := 7, response_message := "ok" }

/-- A genuinely new message from the target, sent at instant 1005. -/
def c6New : Message := { id := "new1", user_id := 7, text := "hi", timestamp := { wall := 1005, tz := some 0 } }

/-- The seen-set produced by thread resolution over `c6Threads`. -/
def c6Seeded : List String := (get_thread_id c6Fetch 7 [] c6Threads).2

/-- One concrete possible set iteration order: reversal.  CPython guarantees
nothing about the order of `list(set)`, so any permutation of the contents —
this one included — is a legitimate behaviour to instantiate. -/
def revOrder : List String → List String := fun l => l.reverse

/-- Poll state after the Reply to `c6New` from the 101-seeded state, under
the `revOrder` iteration order (the decision procedure applied once). -/
def c2St1 : PollState :=
  (stepMessage revOrder c6Cfg 1010 { processed_messages := c6Seeded, sends := [] } c6New).2

/-- Poll state after a poll cycle over the one new message, under the
`revOrder` iteration order. -/
def c6St1 : PollState :=
  check_and_respond revOrder c6Cfg 1010 { processed_messages := c6Seeded, sends := [] } [c6New]

/-- A pre-existing message of the seeded thread whose id the `revOrder` trim
evicts. -/
def c6M100 : Message := { id := "m100", user_id := 7, text := "old", timestamp := { wall := 1000, tz := some 0 } }

/-- Environment setting exactly the variable names the claim uses
(`USERNAME`, `PASSWORD`, `TARGET_USERNAME`). -/
def c8Env : String → Option String := fun k =>
  if k = "USERNAME" then some "alice"
  else if k = "PASSWORD" then some "pw"
  else if k = "TARGET_USERNAME" then some "bob"
  else none

/-- Environment setting the variable names the code actually reads. -/
def c8GoodEnv : String → Option String := fun k =>
  if k = "YOUR_USERNAME" then some "alice"
  else if k = "YOUR_PASSWORD" then some "pw"
  else if k = "TARGET_USERNAME" then some "bob"
  else none

/-! ### Helper lemmas about the seen-set model -/

theorem mem_seenInsert_self (seen : List String) (mid : String) :
    mid ∈ seenInsert seen mid := by
  unfold seenInsert
  by_cases h : mid ∈ seen
  · simp [h]
  · simp [h]

theorem mem_seenInsert_of_mem {seen : List String} {x : String} (mid : String)
    (h : x ∈ seen) : x ∈ seenInsert seen mid := by
  unfold seenInsert
  split <;> simp [h]

theorem seenInsert_of_not_mem {seen : List String} {mid : String} (h : mid ∉ seen) :
    seenInsert seen mid = seen ++ [mid] := by
  simp [seenInsert, h]

theorem step_seen {order : List String → List String} {cfg : BotConfig} {now : Int}
    {st : PollState} {message : Message}
    (h : message.id ∈ st.processed_messages) :
    stepMessage order cfg now st message = (Decision.Ignore, st) := by
  simp [stepMessage, h]

/-! ### C3 -/

/-- C3: a message whose id is already in the seen-set is decided `Ignore`
with the state unchanged (hence no send), regardless of its sender,
timestamp or any other attribute (bot.py lines 179-180), and regardless of
the set iteration order. -/
theorem c3_seen_ignore (order : List String → List String) (cfg : BotConfig)
    (now : Int) (st : PollState) (message : Message)
    (h : message.id ∈ st.processed_messages) :
    stepMessage order cfg now st message = (Decision.Ignore, st) :=
  step_seen h

/-- Witness for C3 at a concrete already-seen message. -/
theorem c3_witness :
    stepMessage (fun l => l) ⟨1, 2, "r"⟩ 0 ⟨["a"], []⟩ ⟨"a", 2, "hi", ⟨0, none⟩⟩ =
      (Decision.Ignore, ⟨["a"], []⟩) :=
  c3_seen_ignore (fun l => l) ⟨1, 2, "r"⟩ 0 ⟨["a"], []⟩ ⟨"a", 2, "hi", ⟨0, none⟩⟩
    (by decide)

/-! ### C5 -/

/-- C5 counterexample: a message from the bot's own account whose id is
already in the seen-set is decided `Ignore`, not `MarkSeenOnly` — the
already-processed check (bot.py line 179) fires before the own-message check
(line 183), so the claimed "regardless of whether its ID is already in the
seen-set" fails. -/
theorem c5_counterexample :
    (⟨"a", 1, "hi", ⟨0, some 0⟩⟩ : Message).user_id = (⟨1, 2, "r"⟩ : BotConfig).self_id ∧
    (stepMessage (fun l => l) ⟨1, 2, "r"⟩ 0 ⟨["a"], []⟩ ⟨"a", 1, "hi", ⟨0, some 0⟩⟩).1 ≠
      Decision.MarkSeenOnly := by
  decide

/-- C5 (amended): a message from the bot's own account that is not yet in
the seen-set is decided `MarkSeenOnly` regardless of its age — its id is
appended and no send occurs; if the id is already in the seen-set the
already-processed check fires first and the decision is `Ignore` (state
unchanged, still no send).  Neither branch reaches the trim, so this holds
for every set iteration order. -/
theorem c5_self_mark_seen (order : List String → List String) (cfg : BotConfig)
    (now : Int) (st : PollState) (message : Message)
    (hself : message.user_id = cfg.self_id) :
    (message.id ∉ st.processed_messages →
      stepMessage order cfg now st message =
        (Decision.MarkSeenOnly,
          { st with processed_messages := st.processed_messages ++ [message.id] })) ∧
    (message.id ∈ st.processed_messages →
      stepMessage order cfg now st message = (Decision.Ignore, st)) := by
  constructor
  · intro hnot
    simp [stepMessage, hnot, hself, seenInsert]
  · intro hmem
    simp [stepMessage, hmem]

/-- Witness for C5 (amended) at a concrete fresh self-message that is 9999
seconds old. -/
theorem c5_witness :
    stepMessage (fun l => l) ⟨1, 2, "r"⟩ 9999 ⟨["a"], []⟩ ⟨"b", 1, "hi", ⟨0, some 0⟩⟩ =
      (Decision.MarkSeenOnly, ⟨["a", "b"], []⟩) :=
  (c5_self_mark_seen (fun l => l) ⟨1, 2, "r"⟩ 9999 ⟨["a"], []⟩ ⟨"b", 1, "hi", ⟨0, some 0⟩⟩
    rfl).1 (by decide)

/-! ### C2 -/

set_option maxRecDepth 100000 in
/-- C2 counterexample: from the reachable 101-id seeded state, a fresh
recent target message is decided `Reply` and its id inserted, but the trim
(bot.py line 215) keeps the last 100 of `list(set)` in the set's arbitrary
iteration order — under the possible order `revOrder` the just-added id is
evicted, so afterwards the id is not in the seen-set and deciding the very
same message again yields `Reply` (a second send), refuting "sends the
canned response exactly once ... applying the decision procedure again to
the same message afterwards returns Ignore". -/
theorem c2_counterexample :
    List.Perm (revOrder (seenInsert c6Seeded c6New.id)) (seenInsert c6Seeded c6New.id) ∧
    c6New.id ∉ c6Seeded ∧
    (stepMessage revOrder c6Cfg 1010 ⟨c6Seeded, []⟩ c6New).1 = Decision.Reply ∧
    c6New.id ∉ c2St1.processed_messages ∧
    (stepMessage revOrder c6Cfg 1010 c2St1 c6New).1 = Decision.Reply :=
  ⟨List.reverse_perm _, by decide, by decide, by decide, by decide⟩

/-- C2 (amended): a not-yet-seen message from the target user (a different
account than the bot itself), whose age relative to `now` is at most 300
seconds, is decided `Reply` with exactly one send of the canned response
addressed to the target appended — for every set iteration order.  When the
seen-set held fewer than 100 entries before the insertion (so the trim does
not fire), the message id is in the seen-set afterwards and deciding the
same message again on the resulting state yields `Ignore` with no further
send.  At or above the cap the trim may evict the just-added id (see the
counterexample). -/
theorem c2_reply_once (order : List String → List String) (cfg : BotConfig)
    (now : Int) (st : PollState) (message : Message)
    (htgt : message.user_id = cfg.target_user_id)
    (hnself : message.user_id ≠ cfg.self_id)
    (hage : now - instant (normalize_tz message.timestamp) ≤ 300)
    (hnew : message.id ∉ st.processed_messages) :
    ((stepMessage order cfg now st message).1 = Decision.Reply ∧
      (stepMessage order cfg now st message).2.sends =
        st.sends ++ [(cfg.response_message, cfg.target_user_id)]) ∧
    (st.processed_messages.length < 100 →
      message.id ∈ (stepMessage order cfg now st message).2.processed_messages ∧
      stepMessage order cfg now (stepMessage order cfg now st message).2 message =
        (Decision.Ignore, (stepMessage order cfg now st message).2)) := by
  have hnotgt : ¬ now - instant (normalize_tz message.timestamp) > 300 := not_lt.mpr hage
  have hnself2 : ¬ cfg.target_user_id = cfg.self_id := fun h => hnself (by rw [htgt, h])
  have happ : seenInsert st.processed_messages message.id =
      st.processed_messages ++ [message.id] := seenInsert_of_not_mem hnew
  by_cases htrim : 100 < st.processed_messages.length + 1
  · have hstep : stepMessage order cfg now st message =
        (Decision.Reply,
          { processed_messages := lastN 100 (order (st.processed_messages ++ [message.id])),
            sends := st.sends ++ [(cfg.response_message, cfg.target_user_id)] }) := by
      simp [stepMessage, hnew, hnself2, htgt, hnotgt, happ, htrim]
    rw [hstep]
    exact ⟨⟨rfl, rfl⟩, fun hlen => absurd htrim (by omega)⟩
  · have hstep : stepMessage order cfg now st message =
        (Decision.Reply,
          { processed_messages := st.processed_messages ++ [message.id],
            sends := st.sends ++ [(cfg.response_message, cfg.target_user_id)] }) := by
      simp [stepMessage, hnew, hnself2, htgt, hnotgt, happ, htrim]
    rw [hstep]
    have hmem2 : message.id ∈ st.processed_messages ++ [message.id] := by simp
    exact ⟨⟨rfl, rfl⟩, fun _ => ⟨hmem2, step_seen hmem2⟩⟩

/-- Witness for C2 (amended) at a concrete fresh 5-second-old message from
the target, below the cap. -/
theorem c2_witness :
    ((stepMessage (fun l => l) ⟨1, 7, "ok"⟩ 10 ⟨[], []⟩ ⟨"m1", 7, "hi", ⟨5, some 0⟩⟩).1 =
        Decision.Reply ∧
      (stepMessage (fun l => l) ⟨1, 7, "ok"⟩ 10 ⟨[], []⟩
        ⟨"m1", 7, "hi", ⟨5, some 0⟩⟩).2.sends = [] ++ [("ok", 7)]) ∧
    "m1" ∈ (stepMessage (fun l => l) ⟨1, 7, "ok"⟩ 10 ⟨[], []⟩
        ⟨"m1", 7, "hi", ⟨5, some 0⟩⟩).2.processed_messages ∧
    stepMessage (fun l => l) ⟨1, 7, "ok"⟩ 10
        (stepMessage (fun l => l) ⟨1, 7, "ok"⟩ 10 ⟨[], []⟩ ⟨"m1", 7, "hi", ⟨5, some 0⟩⟩).2
        ⟨"m1", 7, "hi", ⟨5, some 0⟩⟩ =
      (Decision.Ignore,
        (stepMessage (fun l => l) ⟨1, 7, "ok"⟩ 10 ⟨[], []⟩ ⟨"m1", 7, "hi", ⟨5, some 0⟩⟩).2) := by
  obtain ⟨h1, h2⟩ :=
    c2_reply_once (fun l => l) ⟨1, 7, "ok"⟩ 10 ⟨[], []⟩ ⟨"m1", 7, "hi", ⟨5, some 0⟩⟩ rfl
      (by decide) (by decide) (by decide)
  obtain ⟨h3, h4⟩ := h2 (by decide)
  exact ⟨h1, h3, h4⟩

/-! ### C4 -/

theorem old_step (order : List String → List String) (cfg : BotConfig) (now : Int)
    (st : PollState) (m : Message)
    (htgt : m.user_id = cfg.target_user_id)
    (hold : now - instant (normalize_tz m.timestamp) > 300) :
    (stepMessage order cfg now st m).2.sends = st.sends ∧
    (∀ x ∈ st.processed_messages, x ∈ (stepMessage order cfg now st m).2.processed_messages) ∧
    m.id ∈ (stepMessage order cfg now st m).2.processed_messages := by
  by_cases hseen : m.id ∈ st.processed_messages
  · rw [step_seen hseen]
    exact ⟨rfl, fun x hx => hx, hseen⟩
  · by_cases hself : m.user_id = cfg.self_id
    · have hstep : stepMessage order cfg now st m =
          (Decision.MarkSeenOnly,
            { st with processed_messages := seenInsert st.processed_messages m.id }) := by
        unfold stepMessage
        rw [if_neg hseen, if_pos hself]
      rw [hstep]
      exact ⟨rfl, fun x hx => mem_seenInsert_of_mem _ hx, mem_seenInsert_self _ _⟩
    · have hstep : stepMessage order cfg now st m =
          (Decision.MarkSeenOnly,
            { st with processed_messages := seenInsert st.processed_messages m.id }) := by
        unfold stepMessage
        rw [if_neg hseen, if_neg hself, if_pos htgt, if_pos hold]
      rw [hstep]
      exact ⟨rfl, fun x hx => mem_seenInsert_of_mem _ hx, mem_seenInsert_self _ _⟩

theorem old_cycle (order : List String → List String) (cfg : BotConfig) (now : Int) :
    ∀ (msgs : List Message) (st : PollState),
      (∀ m ∈ msgs, m.user_id = cfg.target_user_id ∧
          now - instant (normalize_tz m.timestamp) > 300) →
      (check_and_respond order cfg now st msgs).sends = st.sends ∧
      (∀ x ∈ st.processed_messages,
        x ∈ (check_and_respond order cfg now st msgs).processed_messages) ∧
      (∀ m ∈ msgs, m.id ∈ (check_and_respond order cfg now st msgs).processed_messages)
  | [], st, _ => ⟨rfl, fun _ hx => hx, by simp⟩
  | m :: rest, st, h => by
    have hm := h m (List.mem_cons_self m rest)
    have hstep := old_step order cfg now st m hm.1 hm.2
    have ih := old_cycle order cfg now rest (stepMessage order cfg now st m).2
      (fun m2 hm2 => h m2 (List.mem_cons_of_mem m hm2))
    rw [show check_and_respond order cfg now st (m :: rest) =
        check_and_respond order cfg now (stepMessage order cfg now st m).2 rest from rfl]
    refine ⟨?_, ?_, ?_⟩
    · rw [ih.1, hstep.1]
    · intro x hx
      exact ih.2.1 x (hstep.2.1 x hx)
    · intro m2 hm2
      rcases List.mem_cons.mp hm2 with h1 | h1
      · subst h1
        exact ih.2.1 m2.id hstep.2.2
      · exact ih.2.2 m2 h1

/-- C4: a stale message from the target (age strictly over 300 seconds) that
is not yet in the seen-set is decided `MarkSeenOnly` — its id is appended,
no send occurs (bot.py lines 199-202); and a whole poll cycle over messages
that are all stale target messages sends nothing and leaves every one of
them marked as processed.  No trim is reached, so this holds for every set
iteration order. -/
theorem c4_stale_mark_seen (order : List String → List String) (cfg : BotConfig)
    (now : Int) :
    (∀ (st : PollState) (m : Message),
        m.user_id = cfg.target_user_id →
        now - instant (normalize_tz m.timestamp) > 300 →
        m.id ∉ st.processed_messages →
        stepMessage order cfg now st m =
          (Decision.MarkSeenOnly,
            { st with processed_messages := st.processed_messages ++ [m.id] })) ∧
    (∀ (st : PollState) (msgs : List Message),
        (∀ m ∈ msgs, m.user_id = cfg.target_user_id ∧
            now - instant (normalize_tz m.timestamp) > 300) →
        (check_and_respond order cfg now st msgs).sends = st.sends ∧
        ∀ m ∈ msgs, m.id ∈ (check_and_respond order cfg now st msgs).processed_messages) := by
  constructor
  · intro st m htgt hold hnew
    have happ := seenInsert_of_not_mem hnew
    by_cases hself : m.user_id = cfg.self_id
    · unfold stepMessage
      rw [if_neg hnew, if_pos hself, happ]
    · unfold stepMessage
      rw [if_neg hnew, if_neg hself, if_pos htgt, if_pos hold, happ]
  · intro st msgs h
    exact ⟨(old_cycle order cfg now msgs st h).1, (old_cycle order cfg now msgs st h).2.2⟩

/-- Witness for C4: a cycle over five 1000-second-old target messages sends
nothing and marks all five. -/
theorem c4_witness :
    (check_and_respond (fun l => l) ⟨1, 7, "ok"⟩ 1000 ⟨[], []⟩
        [⟨"h1", 7, "a", ⟨0, some 0⟩⟩, ⟨"h2", 7, "b", ⟨1, some 0⟩⟩,
         ⟨"h3", 7, "c", ⟨2, some 0⟩⟩, ⟨"h4", 7, "d", ⟨3, some 0⟩⟩,
         ⟨"h5", 7, "e", ⟨4, some 0⟩⟩]).sends = [] ∧
    ∀ m ∈ ([⟨"h1", 7, "a", ⟨0, some 0⟩⟩, ⟨"h2", 7, "b", ⟨1, some 0⟩⟩,
         ⟨"h3", 7, "c", ⟨2, some 0⟩⟩, ⟨"h4", 7, "d", ⟨3, some 0⟩⟩,
         ⟨"h5", 7, "e", ⟨4, some 0⟩⟩] : List Message),
      m.id ∈ (check_and_respond (fun l => l) ⟨1, 7, "ok"⟩ 1000 ⟨[], []⟩
        [⟨"h1", 7, "a", ⟨0, some 0⟩⟩, ⟨"h2", 7, "b", ⟨1, some 0⟩⟩,
         ⟨"h3", 7, "c", ⟨2, some 0⟩⟩, ⟨"h4", 7, "d", ⟨3, some 0⟩⟩,
         ⟨"h5", 7, "e", ⟨4, some 0⟩⟩]).processed_messages :=
  (c4_stale_mark_seen (fun l => l) ⟨1, 7, "ok"⟩ 1000).2 ⟨[], []⟩ _ (by decide)

/-! ### C1 -/

/-- C1 counterexample: a seen-set already holding 100 ids receives a stale
target message (the `MarkSeenOnly` branch, bot.py line 201); that insertion
is not followed by any trim — the trim at lines 214-215 lives only inside
the reply branch — so the seen-set now holds 101 entries, refuting "never
exceeds 100 entries after any insertion" (for any iteration order: the trim
is simply never executed here). -/
theorem c1_counterexample :
    ¬ ((stepMessage (fun l => l) ⟨1, 7, "ok"⟩ 1000 ⟨c1Ids, []⟩
        ⟨"q", 7, "x", ⟨0, some 0⟩⟩).2.processed_messages.length ≤ 100) := by
  decide

/-- C1 (amended): only the Reply branch trims the seen-set.  After a Reply
the seen-set holds at most 100 entries, every one of which was in the set
just after the insertion (which 100 survive is decided by the set's
arbitrary iteration order, quantified here); a non-Reply decision never
trims, leaving the set unchanged or appending exactly one id — so insertions
from seeding or `MarkSeenOnly` can leave the set above 100 entries. -/
theorem c1_trim_only_on_reply (order : List String → List String)
    (horder : ∀ l, List.Perm (order l) l)
    (cfg : BotConfig) (now : Int) (st : PollState) (message : Message) :
    ((stepMessage order cfg now st message).1 = Decision.Reply →
      (stepMessage order cfg now st message).2.processed_messages.length ≤ 100 ∧
      (stepMessage order cfg now st message).2.processed_messages ⊆
        seenInsert st.processed_messages message.id) ∧
    ((stepMessage order cfg now st message).1 ≠ Decision.Reply →
      (stepMessage order cfg now st message).2.processed_messages = st.processed_messages ∨
      (stepMessage order cfg now st message).2.processed_messages =
        st.processed_messages ++ [message.id]) := by
  by_cases hseen : message.id ∈ st.processed_messages
  · rw [step_seen hseen]
    exact ⟨fun h => by simp at h, fun _ => Or.inl rfl⟩
  · have happ := seenInsert_of_not_mem hseen
    by_cases hself : message.user_id = cfg.self_id
    · have hstep : stepMessage order cfg now st message =
          (Decision.MarkSeenOnly,
            { st with processed_messages := seenInsert st.processed_messages message.id }) := by
        unfold stepMessage
        rw [if_neg hseen, if_pos hself]
      rw [hstep]
      exact ⟨fun h => by simp at h, fun _ => Or.inr happ⟩
    · by_cases htgt : message.user_id = cfg.target_user_id
      · by_cases hold : now - instant (normalize_tz message.timestamp) > 300
        · have hstep : stepMessage order cfg now st message =
              (Decision.MarkSeenOnly,
                { st with processed_messages := seenInsert st.processed_messages message.id }) := by
            unfold stepMessage
            rw [if_neg hseen, if_neg hself, if_pos htgt, if_pos hold]
          rw [hstep]
          exact ⟨fun h => by simp at h, fun _ => Or.inr happ⟩
        · have hself2 : ¬ cfg.target_user_id = cfg.self_id := fun h => hself (htgt.trans h)
          by_cases htrim : 100 < st.processed_messages.length + 1
          · have hstep : stepMessage order cfg now st message =
                (Decision.Reply,
                  { processed_messages :=
                      lastN 100 (order (st.processed_messages ++ [message.id])),
                    sends := st.sends ++ [(cfg.response_message, cfg.target_user_id)] }) := by
              simp [stepMessage, hseen, hself2, htgt, hold, happ, htrim]
            rw [hstep]
            refine ⟨fun _ => ⟨?_, ?_⟩, fun h => absurd rfl h⟩
            · unfold lastN
              rw [List.length_drop]
              omega
            · rw [happ]
              intro x hx
              exact (horder _).subset (List.drop_subset _ _ hx)
          · have hstep : stepMessage order cfg now st message =
                (Decision.Reply,
                  { processed_messages := st.processed_messages ++ [message.id],
                    sends := st.sends ++ [(cfg.response_message, cfg.target_user_id)] }) := by
              simp [stepMessage, hseen, hself2, htgt, hold, happ, htrim]
            rw [hstep]
            refine ⟨fun _ => ⟨?_, ?_⟩, fun h => absurd rfl h⟩
            · simp only [List.length_append, List.length_singleton]
              omega
            · rw [happ]
              exact List.Subset.refl _
      · have hstep : stepMessage order cfg now st message = (Decision.Ignore, st) := by
          unfold stepMessage
          rw [if_neg hseen, if_neg hself, if_neg htgt]
        rw [hstep]
        exact ⟨fun h => by simp at h, fun _ => Or.inl rfl⟩

/-- Witness for C1 (amended) at a concrete Reply step under the identity
iteration order. -/
theorem c1_witness :
    (stepMessage (fun l => l) ⟨1, 7, "ok"⟩ 10 ⟨["a"], []⟩
        ⟨"b", 7, "hi", ⟨5, some 0⟩⟩).2.processed_messages.length ≤ 100 :=
  ((c1_trim_only_on_reply (fun l => l) (fun l => List.Perm.refl l) ⟨1, 7, "ok"⟩ 10
      ⟨["a"], []⟩ ⟨"b", 7, "hi", ⟨5, some 0⟩⟩).1 (by decide)).1

/-! ### C9 -/

/-- C9: when `direct_send` raises in the Reply branch, the message id has
not yet been added to the seen-set (line 211 runs after line 207), so the
state is unchanged — the message stays eligible for the next cycle — the
remaining messages of the cycle are not evaluated, and the poll-cycle
handler (lines 217-218) absorbs the exception, returning normally.  The
error path never reaches the trim, so this holds for every set iteration
order. -/
theorem c9_send_failure (order : List String → List String) (cfg : BotConfig)
    (send_fails : String → Bool) (now : Int)
    (st : PollState) (message : Message) (rest : List Message)
    (hnew : message.id ∉ st.processed_messages)
    (hnself : message.user_id ≠ cfg.self_id)
    (htgt : message.user_id = cfg.target_user_id)
    (hage : now - instant (normalize_tz message.timestamp) ≤ 300)
    (hfail : send_fails message.id = true) :
    stepMessageE order cfg send_fails now st message = Except.error st ∧
    check_and_respondE order cfg send_fails now st (message :: rest) = st := by
  have hnotgt : ¬ now - instant (normalize_tz message.timestamp) > 300 := not_lt.mpr hage
  have hstep : stepMessageE order cfg send_fails now st message = Except.error st := by
    unfold stepMessageE
    rw [if_neg hnew, if_neg hnself, if_pos htgt, if_neg hnotgt, if_pos hfail]
  refine ⟨hstep, ?_⟩
  rw [show check_and_respondE order cfg send_fails now st (message :: rest) =
      (match stepMessageE order cfg send_fails now st message with
       | Except.error stE => stE
       | Except.ok (_, st2) => check_and_respondE order cfg send_fails now st2 rest) from rfl]
  rw [hstep]

/-- Witness for C9: a failing send on a fresh recent target message aborts
the cycle with the state unchanged, skipping the second message. -/
theorem c9_witness :
    stepMessageE (fun l => l) ⟨1, 7, "ok"⟩ (fun i => i == "n1") 10 ⟨["a"], []⟩
        ⟨"n1", 7, "hi", ⟨5, some 0⟩⟩ = Except.error ⟨["a"], []⟩ ∧
    check_and_respondE (fun l => l) ⟨1, 7, "ok"⟩ (fun i => i == "n1") 10 ⟨["a"], []⟩
        [⟨"n1", 7, "hi", ⟨5, some 0⟩⟩, ⟨"n2", 7, "yo", ⟨6, some 0⟩⟩] = ⟨["a"], []⟩ :=
  c9_send_failure (fun l => l) ⟨1, 7, "ok"⟩ (fun i => i == "n1") 10 ⟨["a"], []⟩
    ⟨"n1", 7, "hi", ⟨5, some 0⟩⟩ [⟨"n2", 7, "yo", ⟨6, some 0⟩⟩]
    (by decide) (by decide) rfl (by decide) (by decide)

/-! ### C7 -/

/-- C7: whatever exception the session-restore path raises (corrupt or
invalid `session.json` included), `login` swallows it via the inner
`except Exception` (bot.py line 54) and continues with the fresh-login path;
and `login` always returns a boolean to its caller rather than raising. -/
theorem c7_login_fallback (env : LoginEnv) (e : PyErr)
    (hsess : env.session_exists = true)
    (hrestore : env.session_login = Except.error e) :
    login env = fresh_login_path env ∧ (login env = true ∨ login env = false) := by
  constructor
  · simp [login, hsess, hrestore]
  · exact Bool.eq_false_or_eq_true (login env)

/-- Witness for C7: a corrupt session file falls back to a successful fresh
login. -/
theorem c7_witness :
    login ⟨true, Except.error (PyErr.other "corrupt session"), Except.ok (), Except.ok ()⟩ =
      fresh_login_path
        ⟨true, Except.error (PyErr.other "corrupt session"), Except.ok (), Except.ok ()⟩ :=
  (c7_login_fallback _ (PyErr.other "corrupt session") rfl rfl).1

/-! ### C6 -/

theorem mem_seedProcessed_of_mem_acc :
    ∀ (msgs : List Message) (acc : List String) (x : String),
      x ∈ acc → x ∈ seedProcessed acc msgs
  | [], _, _, hx => hx
  | m :: rest, acc, x, hx =>
    mem_seedProcessed_of_mem_acc rest (seenInsert acc m.id) x (mem_seenInsert_of_mem _ hx)

theorem mem_seedProcessed_self :
    ∀ (msgs : List Message) (acc : List String) (m : Message),
      m ∈ msgs → m.id ∈ seedProcessed acc msgs
  | [], _, m, hm => absurd hm (List.not_mem_nil m)
  | m0 :: rest, acc, m, hm => by
    rcases List.mem_cons.mp hm with h | h
    · subst h
      exact mem_seedProcessed_of_mem_acc rest _ _ (mem_seenInsert_self _ _)
    · exact mem_seedProcessed_self rest (seenInsert acc m0.id) m h

set_option maxRecDepth 100000 in
/-- C6 counterexample to "no pre-existing message can later trigger a
Reply": seed a thread holding 101 recent target messages, then let the bot
reply to one genuinely new message.  The Reply's trim (bot.py lines 214-215)
keeps the last 100 of `list(set)` in the set's arbitrary iteration order;
under the possible order `revOrder` the seeded pre-existing id `m100` is
evicted, after which that message — still inside the 5-minute window — is
decided `Reply`. -/
theorem c6_counterexample :
    c6M100 ∈ c6Fetch "t1" ∧ c6M100.id ∈ c6Seeded ∧
    List.Perm (revOrder (seenInsert c6Seeded c6New.id)) (seenInsert c6Seeded c6New.id) ∧
    (stepMessage revOrder c6Cfg 1010 c6St1 c6M100).1 = Decision.Reply :=
  ⟨by decide, by decide, List.reverse_perm _, by decide⟩

/-- C6 (amended): when some scanned thread contains the target user id,
thread resolution returns the id of such a thread and marks every message
fetched from it as processed before polling begins; immediately after
seeding, every one of those messages is decided `Ignore` (no send), for
every iteration order and configuration.  The protection holds only while
the seeded ids remain in the seen-set — a later Reply trim past 100 entries
can evict them (see the counterexample). -/
theorem c6_seeding (fetch : String → List Message) (target_user_id : Nat)
    (processed : List String) :
    ∀ (threads : List ThreadInfo) (t : ThreadInfo), t ∈ threads →
      target_user_id ∈ t.users →
      ∃ tid, (get_thread_id fetch target_user_id processed threads).1 = some tid ∧
        (∃ t2 ∈ threads, t2.id = tid ∧ target_user_id ∈ t2.users) ∧
        (∀ m ∈ fetch tid,
          m.id ∈ (get_thread_id fetch target_user_id processed threads).2) ∧
        (∀ (order : List String → List String) (cfg : BotConfig) (now : Int)
            (sends : List (String × Nat)) (m : Message),
          m ∈ fetch tid →
          stepMessage order cfg now
              ⟨(get_thread_id fetch target_user_id processed threads).2, sends⟩ m =
            (Decision.Ignore,
              ⟨(get_thread_id fetch target_user_id processed threads).2, sends⟩)) := by
  intro threads
  induction threads with
  | nil => exact fun t ht _ => absurd ht (List.not_mem_nil t)
  | cons t0 rest ih =>
    intro t ht htu
    by_cases h0 : target_user_id ∈ t0.users
    · have heq : get_thread_id fetch target_user_id processed (t0 :: rest) =
          (some t0.id, seedProcessed processed (fetch t0.id)) := by
        unfold get_thread_id
        rw [if_pos h0]
      refine ⟨t0.id, ?_, ⟨t0, List.mem_cons_self t0 rest, rfl, h0⟩, ?_, ?_⟩
      · rw [heq]
      · intro m hm
        rw [heq]
        exact mem_seedProcessed_self _ _ _ hm
      · intro order cfg now sends m hm
        rw [heq]
        exact step_seen (mem_seedProcessed_self _ _ _ hm)
    · have ht' : t ∈ rest := by
        rcases List.mem_cons.mp ht with h | h
        · subst h; exact absurd htu h0
        · exact h
      have heq : get_thread_id fetch target_user_id processed (t0 :: rest) =
          get_thread_id fetch target_user_id processed rest := by
        conv_lhs => rw [get_thread_id]
        rw [if_neg h0]
      obtain ⟨tid, h1, ⟨t2, ht2, hid, htu2⟩, h5, h6⟩ := ih t ht' htu
      refine ⟨tid, ?_, ⟨t2, List.mem_cons_of_mem t0 ht2, hid, htu2⟩, ?_, ?_⟩
      · rw [heq]; exact h1
      · intro m hm
        rw [heq]
        exact h5 m hm
      · intro order cfg now sends m hm
        rw [heq]
        exact h6 order cfg now sends m hm

/-- Witness for C6 (amended): a one-thread scan with one pre-existing
message seeds that message's id. -/
theorem c6_witness :
    (get_thread_id (fun _ => [⟨"z1", 9, "x", ⟨0, some 0⟩⟩]) 9 [] [⟨"t9", [3, 9]⟩]).1 =
      some "t9" ∧
    "z1" ∈ (get_thread_id (fun _ => [⟨"z1", 9, "x", ⟨0, some 0⟩⟩]) 9 [] [⟨"t9", [3, 9]⟩]).2 := by
  obtain ⟨tid, h1, ⟨t2, ht2, hid, _⟩, h5, _⟩ :=
    c6_seeding (fun _ => [⟨"z1", 9, "x", ⟨0, some 0⟩⟩]) 9 [] [⟨"t9", [3, 9]⟩]
      ⟨"t9", [3, 9]⟩ (List.mem_cons_self _ _) (by decide)
  have ht2' : t2 = ⟨"t9", [3, 9]⟩ := List.mem_singleton.mp ht2
  subst ht2'
  refine ⟨?_, h5 ⟨"z1", 9, "x", ⟨0, some 0⟩⟩ (by decide)⟩
  rw [h1, ← hid]

/-! ### C8 -/

/-- C8 counterexample: an environment that sets exactly `USERNAME`,
`PASSWORD` and `TARGET_USERNAME` — the names the claim says are read — makes
`main` return early with the missing-variables error, because the code
actually reads `YOUR_USERNAME` and `YOUR_PASSWORD` (bot.py lines 267-268). -/
theorem c8_counterexample :
    c8Env "USERNAME" = some "alice" ∧ c8Env "PASSWORD" = some "pw" ∧
    c8Env "TARGET_USERNAME" = some "bob" ∧ c8Env "RESPONSE_MESSAGE" = none ∧
    c8Env "CHECK_INTERVAL" = none ∧
    bot_main c8Env = MainResult.missing_vars := by
  decide

/-- C8 (amended): `main` reads `YOUR_USERNAME`, `YOUR_PASSWORD` and
`TARGET_USERNAME`; when any of the three is absent (and the interval parses)
it returns early with the missing-variables error, and when all three are
set non-empty with the optional variables absent it runs the bot with the
defaults `RESPONSE_MESSAGE = "Thanks for your message!"` and
`CHECK_INTERVAL = 10`. -/
theorem c8_env_config (env : String → Option String) :
    ((∃ n, py_int ((env "CHECK_INTERVAL").getD "10") = some n) →
      (env "YOUR_USERNAME" = none ∨ env "YOUR_PASSWORD" = none ∨
        env "TARGET_USERNAME" = none) →
      bot_main env = MainResult.missing_vars) ∧
    (py_truthy (env "YOUR_USERNAME") = true →
      py_truthy (env "YOUR_PASSWORD") = true →
      py_truthy (env "TARGET_USERNAME") = true →
      env "RESPONSE_MESSAGE" = none →
      env "CHECK_INTERVAL" = none →
      bot_main env = MainResult.run_bot ((env "YOUR_USERNAME").getD "")
        ((env "YOUR_PASSWORD").getD "") ((env "TARGET_USERNAME").getD "")
        "Thanks for your message!" 10) := by
  have h10 : py_int "10" = some 10 := by decide
  constructor
  · rintro ⟨n, hn⟩ (h | h | h) <;> simp [bot_main, hn, h, py_truthy]
  · intro h1 h2 h3 h4 h5
    simp [bot_main, h1, h2, h3, h4, h5, h10]

/-- Witness for C8 (amended): with the code's variable names set, the bot
runs with the documented defaults. -/
theorem c8_witness :
    bot_main c8GoodEnv =
      MainResult.run_bot "alice" "pw" "bob" "Thanks for your message!" 10 :=
  (c8_env_config c8GoodEnv).2 (by decide) (by decide) (by decide) rfl rfl

/-! ### C10 -/

/-- C10: whenever `CHECK_INTERVAL` is set to a string that `int` rejects,
`main` propagates the `ValueError` raised at bot.py line 271 — before the
missing-variable validation at line 274 and before the bot is constructed —
for every state of the remaining environment variables. -/
theorem c10_invalid_interval (env : String → Option String) (s : String)
    (hset : env "CHECK_INTERVAL" = some s) (hbad : py_int s = none) :
    bot_main env = MainResult.value_error s := by
  simp [bot_main, hset, hbad]

/-- Witness for C10: `CHECK_INTERVAL = "ten"` raises even though every
required variable is missing. -/
theorem c10_witness :
    bot_main (fun k => if k = "CHECK_INTERVAL" then some "ten" else none) =
      MainResult.value_error "ten" :=
  c10_invalid_interval (fun k => if k = "CHECK_INTERVAL" then some "ten" else none) "ten"
    (by decide) (by decide)
